import Mathlib

/-!
Verification of the theov5-Vision-Tracking repository: the okapi
rotary-sensor capability hierarchy (RotarySensor, ContinuousRotarySensor,
IntegratedEncoder) and the opcontrol task-spawning loop.

The repository ships only the class declarations for the sensor hierarchy
(integratedEncoder.hpp, continuousRotarySensor.hpp); the method bodies and
the vendor motor API live outside the repository, so those parts are
modelled from the specification, as marked on each definition.
-/

namespace VisionTracking

/-- Modelled from the spec: the reserved sentinel failure value PROS_ERR.
The vendor header defining it is not under src/; the spec describes it as a
reserved out-of-band integer value at the integer boundary, so we take the
top signed 32-bit value. -/
def PROS_ERR : Int := 2 ^ 31 - 1

/-- Modelled from the spec: a valid sensor reading is a signed 32-bit value
with the reserved sentinel excluded from the range. -/
def validReading (v : Int) : Prop := -(2 ^ 31) ≤ v ∧ v < 2 ^ 31 - 1

/-- Modelled from the spec: the hardware state external to the adapter.
For each motor port it records the accumulated encoder value and whether the
position query or the zeroing command currently fails there. -/
structure HWState where
  encoderValue : Nat → Int
  queryFails : Nat → Bool
  resetFails : Nat → Bool

/-- Modelled from the spec: a motor handle (external collaborator contract of
section 6). The handle denotes the motor on a port; it stores no sensor
state of its own. -/
structure Motor where
  port : Nat

/-- Modelled from the spec: the motor handle's built-in encoder-position
query. It returns the integer reading, or the reserved failure sentinel when
the underlying query fails. -/
def Motor.getPosition (m : Motor) (hw : HWState) : Int :=
  if hw.queryFails m.port then PROS_ERR else hw.encoderValue m.port

/-- Modelled from the spec: the motor handle's built-in encoder-zeroing
command. It re-zeroes the accumulated position of this port and returns 1,
or on failure leaves the state unchanged and returns the failure sentinel. -/
def Motor.tarePosition (m : Motor) (hw : HWState) : HWState × Int :=
  if hw.resetFails m.port then (hw, PROS_ERR)
  else ({ hw with encoderValue := fun p => if p = m.port then 0 else hw.encoderValue p }, 1)

/-- The IntegratedEncoder adapter (integratedEncoder.hpp): it holds one motor
handle, given at construction, as its sole held reference. -/
structure IntegratedEncoder where
  motor : Motor

/-- Modelled from the spec: the body of IntegratedEncoder.get is not under
src/ (only its declaration at integratedEncoder.hpp lines 23-28). It forwards
to the motor handle's built-in encoder-position query and returns its result
unmodified; being const, it changes no state, which the embedding reflects by
returning only the reading. -/
def IntegratedEncoder.get (e : IntegratedEncoder) (hw : HWState) : Int :=
  e.motor.getPosition hw

/-- Modelled from the spec: the body of IntegratedEncoder.reset is not under
src/ (only its declaration at integratedEncoder.hpp lines 30-35). It forwards
to the motor handle's built-in encoder-zeroing command and returns its result
unmodified; the hardware state it commands is returned alongside. -/
def IntegratedEncoder.reset (e : IntegratedEncoder) (hw : HWState) : HWState × Int :=
  e.motor.tarePosition hw

/-- Modelled from the spec: the body of IntegratedEncoder.controllerGet is
not under src/ (only its declaration at integratedEncoder.hpp lines 37-43).
It forwards to the same underlying query, widened to floating point; the
int32-to-double widening is exact, so it is embedded as the exact cast into
the rationals. -/
def IntegratedEncoder.controllerGet (e : IntegratedEncoder) (hw : HWState) : ℚ :=
  (e.motor.getPosition hw : ℚ)

/-- Modelled from the spec: the RotarySensor capability (rotarySensor.hpp is
not under src/). It is the minimal read contract: the get operation and
nothing else. -/
structure RotarySensorOps (S : Type) where
  get : S → HWState → Int

/-- The ContinuousRotarySensor capability (continuousRotarySensor.hpp lines
15-23): it extends RotarySensor with the reset operation, the only member it
introduces. -/
structure ContinuousRotarySensorOps (S : Type) extends RotarySensorOps S where
  reset : S → HWState → HWState × Int

/-- IntegratedEncoder implements the ContinuousRotarySensor capability
(integratedEncoder.hpp line 14). -/
def integratedEncoderOps : ContinuousRotarySensorOps IntegratedEncoder :=
  { get := IntegratedEncoder.get, reset := IntegratedEncoder.reset }

/-- A concrete hardware state used to evaluate the theorems: every port reads
42 and no query or command fails. -/
def hwA : HWState :=
  { encoderValue := fun _ => 42, queryFails := fun _ => false, resetFails := fun _ => false }

/-- A concrete hardware state in which every query and command fails. -/
def hwBad : HWState :=
  { encoderValue := fun _ => 42, queryFails := fun _ => true, resetFails := fun _ => true }

/-- The task functions referenced by opcontrol.cpp; their bodies live in
headers not under src/, so they enter the embedding as abstract names. -/
inductive TaskFn where
  | driverBaseControl
  | armP
  | monitorVisionTask
  | screenDrawTask
deriving DecidableEq

/-- Modelled from the vendor API (not under src/): the default task priority
constant; the embedding uses it only symbolically. -/
def TASK_PRIORITY_DEFAULT : Nat := 8

/-- Modelled from the vendor API (not under src/): the default task stack
depth constant; the embedding uses it only symbolically. -/
def TASK_STACK_DEPTH_DEFAULT : Nat := 8192

/-- An observable action of opcontrol: constructing a background Task through
the RTOS primitive (function, argument, priority, stack depth, name), where a
NULL argument is the value none, or delaying for a number of milliseconds. -/
inductive Action where
  | createTask (fn : TaskFn) (arg : Option Nat) (priority stackDepth : Nat) (name : String)
  | delay (ms : Nat)
deriving DecidableEq

/-- Whether an action is a task creation. -/
def Action.isCreateTask : Action → Bool
  | .createTask _ _ _ _ _ => true
  | .delay _ => false

/-- Shallow embedding of opcontrol (src/src/Driver/opcontrol.cpp lines
11-23) as the sequence of RTOS calls it performs: three Task constructions
in source order (the fourth construction in the source is commented out),
then the while true loop whose body is the single call delay(100). The loop
never exits, so the trace assigns a loop action to every later index. -/
def opcontrolTrace (n : Nat) : Action :=
  match n with
  | 0 => .createTask .driverBaseControl none TASK_PRIORITY_DEFAULT TASK_STACK_DEPTH_DEFAULT
      "DriverBaseControl"
  | 1 => .createTask .armP none TASK_PRIORITY_DEFAULT TASK_STACK_DEPTH_DEFAULT "ArmP"
  | 2 => .createTask .monitorVisionTask none TASK_PRIORITY_DEFAULT TASK_STACK_DEPTH_DEFAULT
      "VisionPolling"
  | _ + 3 => .delay 100

/-- C1: for every motor handle, get forwards to the built-in encoder-position
query and returns its result unmodified: a forced underlying value V is
returned exactly, and an underlying failure yields the sentinel PROS_ERR. -/
theorem get_forwards (e : IntegratedEncoder) (hw : HWState) (V : Int) :
    (hw.queryFails e.motor.port = false → hw.encoderValue e.motor.port = V →
      e.get hw = V) ∧
    (hw.queryFails e.motor.port = true → e.get hw = PROS_ERR) ∧
    e.get hw = e.motor.getPosition hw := by
  refine ⟨fun hq hV => ?_, fun hq => ?_, rfl⟩
  · simp [IntegratedEncoder.get, Motor.getPosition, hq, hV]
  · simp [IntegratedEncoder.get, Motor.getPosition, hq]

/-- Witness for C1 at a concrete motor and hardware state: the forced value
42 is returned on success, and the sentinel on failure. -/
theorem get_forwards_witness :
    IntegratedEncoder.get ⟨⟨1⟩⟩ hwA = 42 ∧ IntegratedEncoder.get ⟨⟨1⟩⟩ hwBad = PROS_ERR :=
  ⟨(get_forwards ⟨⟨1⟩⟩ hwA 42).1 rfl rfl, (get_forwards ⟨⟨1⟩⟩ hwBad 42).2.1 rfl⟩

/-- C2: for every motor handle and every fixed underlying reading,
controllerGet returns the value get would return at the same instant, the
same underlying query widened exactly to floating point. -/
theorem controllerGet_eq_get (e : IntegratedEncoder) (hw : HWState) :
    e.controllerGet hw = ((e.get hw : Int) : ℚ) := rfl

/-- C3: the failure sentinel is a reserved out-of-band integer value distinct
from every valid reading, and when the hardware holds a valid reading, get
signals failure only by returning this sentinel, exactly when the underlying
query fails; the embedding is a total function, so no exception or abort can
occur. -/
theorem sentinel_out_of_band (e : IntegratedEncoder) (hw : HWState)
    (hvalid : validReading (hw.encoderValue e.motor.port)) :
    (∀ v : Int, validReading v → v ≠ PROS_ERR) ∧
    (e.get hw = PROS_ERR ↔ hw.queryFails e.motor.port = true) := by
  constructor
  · intro v hv heq
    exact absurd (heq ▸ hv.2) (by simp [PROS_ERR])
  · unfold IntegratedEncoder.get Motor.getPosition
    rcases hq : hw.queryFails e.motor.port with _ | _
    · simp only [hq, if_false, Bool.false_eq_true, iff_false]
      intro heq
      exact absurd (heq ▸ hvalid.2) (by simp [PROS_ERR])
    · simp [hq]

/-- Witness for C3 at a concrete motor and hardware state holding the valid
reading 42. -/
theorem sentinel_out_of_band_witness :
    validReading (hwA.encoderValue 1) ∧
    (IntegratedEncoder.get ⟨⟨1⟩⟩ hwA = PROS_ERR ↔ hwA.queryFails 1 = true) :=
  ⟨⟨by decide, by decide⟩, (sentinel_out_of_band ⟨⟨1⟩⟩ hwA ⟨by decide, by decide⟩).2⟩

/-- C4: for every motor handle, reset forwards to the built-in encoder-zeroing
command and returns its result unmodified: on success it re-zeroes the
accumulated position of the motor's port and returns 1, on failure it returns
the same sentinel as get, and no other status is possible. -/
theorem reset_forwards (e : IntegratedEncoder) (hw : HWState) :
    e.reset hw = e.motor.tarePosition hw ∧
    ((e.reset hw).2 = 1 ∨ (e.reset hw).2 = PROS_ERR) ∧
    (hw.resetFails e.motor.port = false →
      (e.reset hw).2 = 1 ∧ (e.reset hw).1.encoderValue e.motor.port = 0) ∧
    (hw.resetFails e.motor.port = true → (e.reset hw).2 = PROS_ERR) := by
  refine ⟨rfl, ?_, fun hr => ?_, fun hr => ?_⟩
  · unfold IntegratedEncoder.reset Motor.tarePosition
    rcases hw.resetFails e.motor.port with _ | _ <;> simp
  · simp [IntegratedEncoder.reset, Motor.tarePosition, hr]
  · simp [IntegratedEncoder.reset, Motor.tarePosition, hr]

/-- Witness for C4 at a concrete motor: success status 1 with a re-zeroed
port on the healthy state, the sentinel on the failing state. -/
theorem reset_forwards_witness :
    ((IntegratedEncoder.reset ⟨⟨1⟩⟩ hwA).2 = 1 ∧
      (IntegratedEncoder.reset ⟨⟨1⟩⟩ hwA).1.encoderValue 1 = 0) ∧
    (IntegratedEncoder.reset ⟨⟨1⟩⟩ hwBad).2 = PROS_ERR :=
  ⟨(reset_forwards ⟨⟨1⟩⟩ hwA).2.2.1 rfl, (reset_forwards ⟨⟨1⟩⟩ hwBad).2.2.2 rfl⟩

/-- C5: the constructor stores the given motor handle as the adapter's sole
held reference, every operation targets exactly that handle's built-in query
or command, and the adapter carries no state besides the handle, so no
operation can rebind it to a different motor. -/
theorem constructor_sole_target (m : Motor) (hw : HWState) :
    (IntegratedEncoder.mk m).motor = m ∧
    (IntegratedEncoder.mk m).get hw = m.getPosition hw ∧
    (IntegratedEncoder.mk m).reset hw = m.tarePosition hw ∧
    (IntegratedEncoder.mk m).controllerGet hw = (m.getPosition hw : ℚ) ∧
    (∀ e : IntegratedEncoder, e = ⟨e.motor⟩) :=
  ⟨rfl, rfl, rfl, rfl, fun _ => rfl⟩

/-- C6: on an idealized zero-ready mock, where neither the zeroing command nor
the subsequent query fails on the adapter's port, reset followed immediately
by get returns the post-reset value 0. -/
theorem reset_then_get_zero (e : IntegratedEncoder) (hw : HWState)
    (hr : hw.resetFails e.motor.port = false)
    (hq : hw.queryFails e.motor.port = false) :
    e.get (e.reset hw).1 = 0 := by
  simp [IntegratedEncoder.get, IntegratedEncoder.reset, Motor.getPosition,
    Motor.tarePosition, hr, hq]

/-- Witness for C6 on the healthy concrete hardware state. -/
theorem reset_then_get_zero_witness :
    IntegratedEncoder.get ⟨⟨1⟩⟩ (IntegratedEncoder.reset ⟨⟨1⟩⟩ hwA).1 = 0 :=
  reset_then_get_zero ⟨⟨1⟩⟩ hwA rfl rfl

/-- C7: two adapters over distinct motor handles are independent: get and
controllerGet change no state at all, and the state change commanded by reset
on one adapter leaves the other adapter's readings, both integer and
floating-point, unchanged. -/
theorem instances_independent (e1 e2 : IntegratedEncoder) (hw : HWState)
    (hne : e1.motor.port ≠ e2.motor.port) :
    e2.get (e1.reset hw).1 = e2.get hw ∧
    e2.controllerGet (e1.reset hw).1 = e2.controllerGet hw := by
  have hval : (e1.reset hw).1.encoderValue e2.motor.port
      = hw.encoderValue e2.motor.port := by
    unfold IntegratedEncoder.reset Motor.tarePosition
    rcases hr : hw.resetFails e1.motor.port with _ | _
    · simp only [hr, Bool.false_eq_true, if_false]
      exact if_neg fun h => hne h.symm
    · simp [hr]
  have hqf : (e1.reset hw).1.queryFails = hw.queryFails := by
    unfold IntegratedEncoder.reset Motor.tarePosition
    rcases hr : hw.resetFails e1.motor.port with _ | _ <;> simp [hr]
  constructor
  · unfold IntegratedEncoder.get Motor.getPosition
    rw [hqf, hval]
  · unfold IntegratedEncoder.controllerGet Motor.getPosition
    rw [hqf, hval]

/-- Witness for C7: resetting the adapter on port 1 leaves the readings of
the adapter on port 2 unchanged. -/
theorem instances_independent_witness :
    IntegratedEncoder.get ⟨⟨2⟩⟩ (IntegratedEncoder.reset ⟨⟨1⟩⟩ hwA).1
      = IntegratedEncoder.get ⟨⟨2⟩⟩ hwA ∧
    IntegratedEncoder.controllerGet ⟨⟨2⟩⟩ (IntegratedEncoder.reset ⟨⟨1⟩⟩ hwA).1
      = IntegratedEncoder.controllerGet ⟨⟨2⟩⟩ hwA :=
  instances_independent ⟨⟨1⟩⟩ ⟨⟨2⟩⟩ hwA (by decide)

/-- C8: the RotarySensor capability consists of the get operation and nothing
else, so a caller holding only that capability has no reset to invoke; reset
is exactly the member the ContinuousRotarySensor capability adds on top of
it. This is a fact about the capability types themselves, not a runtime
check. -/
theorem rotary_capability_only_get :
    (∀ (S : Type) (ops : RotarySensorOps S), ops = ⟨ops.get⟩) ∧
    (∀ (S : Type) (ops : ContinuousRotarySensorOps S),
      ops = ⟨⟨ops.get⟩, ops.reset⟩) ∧
    integratedEncoderOps.get = IntegratedEncoder.get ∧
    integratedEncoderOps.reset = IntegratedEncoder.reset :=
  ⟨fun _ _ => rfl, fun _ _ => rfl, rfl, rfl⟩

/-- C9: opcontrol spawns exactly three background tasks, the actions at
indices 0, 1 and 2 of its trace, and then idles: every later action of the
never-ending trace is the bare delay of its loop body, so opcontrol never
returns and never launches a fourth task. -/
theorem opcontrol_three_tasks_then_idle :
    (∀ n : Nat, (opcontrolTrace n).isCreateTask = true ↔ n < 3) ∧
    (∀ n : Nat, 3 ≤ n → opcontrolTrace n = Action.delay 100) := by
  constructor
  · intro n
    match n with
    | 0 => simp [opcontrolTrace, Action.isCreateTask]
    | 1 => simp [opcontrolTrace, Action.isCreateTask]
    | 2 => simp [opcontrolTrace, Action.isCreateTask]
    | n + 3 => simp [opcontrolTrace, Action.isCreateTask]
  · intro n hn
    match n, hn with
    | n + 3, _ => rfl

/-- Witness for C9: the action at index 5 is the idle delay, and the one at
index 0 is a task creation. -/
theorem opcontrol_three_tasks_then_idle_witness :
    opcontrolTrace 5 = Action.delay 100 ∧ (opcontrolTrace 0).isCreateTask = true :=
  ⟨opcontrol_three_tasks_then_idle.2 5 (by decide),
    (opcontrol_three_tasks_then_idle.1 0).mpr (by decide)⟩

/-- C10: opcontrol creates its three tasks in source order, driverBaseControl
named DriverBaseControl, then armP named ArmP, then monitorVisionTask named
VisionPolling, each with a NULL argument, default priority and default stack
depth, and every iteration of its idle loop performs exactly delay(100) and
nothing else. -/
theorem opcontrol_task_parameters :
    opcontrolTrace 0 = Action.createTask TaskFn.driverBaseControl none
      TASK_PRIORITY_DEFAULT TASK_STACK_DEPTH_DEFAULT "DriverBaseControl" ∧
    opcontrolTrace 1 = Action.createTask TaskFn.armP none
      TASK_PRIORITY_DEFAULT TASK_STACK_DEPTH_DEFAULT "ArmP" ∧
    opcontrolTrace 2 = Action.createTask TaskFn.monitorVisionTask none
      TASK_PRIORITY_DEFAULT TASK_STACK_DEPTH_DEFAULT "VisionPolling" ∧
    ∀ n : Nat, 3 ≤ n → opcontrolTrace n = Action.delay 100 := by
  refine ⟨rfl, rfl, rfl, fun n hn => ?_⟩
  match n, hn with
  | n + 3, _ => rfl

/-- Witness for C10: the loop iteration at index 3 is exactly delay(100). -/
theorem opcontrol_task_parameters_witness :
    opcontrolTrace 3 = Action.delay 100 :=
  opcontrol_task_parameters.2.2.2 3 (by decide)

end VisionTracking
